import Mathlib

/-!
Verification development for the DietCheck plugin (src/plugin.py).

The core decision logic of the plugin is embedded shallowly below:

* Python strings are Lean `String`s; Python `x in s` substring tests,
  `s.lower()`, `s.strip()`, `s.replace("_100g", "")` are modelled by
  executable functions `pyIn`, `pyLower`, `pyStrip`, `pyReplace100g`.
* The `nutriments` mapping is an association list from keys to `PyVal`
  (a JSON-style value: a number or a string); Python `dict.get` is
  `pyDictGet`.  Python `float(x)` and the numeric comparison `x > c`
  (which raise `ValueError` / `TypeError` on non-numeric strings) are
  modelled by `pyFloat` and `pyGt` returning `Except PyErr`.
* Warnings, recommendations and rejection reasons are structured values
  (`Warning`, `Rec`, `Reason`): the source builds display strings, whose
  exact formatting is presentation-level; each constructor carries the
  same data that the corresponding source string interpolates.
* The regular-expression scan used by the nut detector
  (`re.findall(r"[^\x7b\x7d'\"]*(?:nuts|nut|...)[^\x7b\x7d'\"]*?(\d+(?:\.\d+)?)\s*%", ...)`)
  is implemented as an executable backtracking matcher with Python
  semantics (greedy star, ordered alternation, lazy star, findall scan).
-/

/-! ## Characters and string helpers -/

/-- The single-quote character, written via its code point. -/
def squoteChar : Char := Char.ofNat 39

/-- The double-quote character. -/
def dquoteChar : Char := Char.ofNat 34

/-- The opening-brace character. -/
def braceLChar : Char := Char.ofNat 123

/-- The closing-brace character. -/
def braceRChar : Char := Char.ofNat 125

/-- Substring test on character lists: does `pat` occur inside `hay`?
Models Python `pat in hay` for strings. -/
def listSub (pat : List Char) : List Char → Bool
  | [] => pat.isEmpty
  | c :: rest => pat.isPrefixOf (c :: rest) || listSub pat rest

/-- Python `needle in hay` (substring containment). -/
def pyIn (needle hay : String) : Bool :=
  listSub needle.toList hay.toList

/-- Python `s.lower()` (character-wise lowering). -/
def pyLower (s : String) : String :=
  String.mk (s.toList.map Char.toLower)

/-- Python `s.strip()`: drop whitespace on both ends. -/
def pyStrip (s : String) : String :=
  String.mk (((s.toList.dropWhile Char.isWhitespace).reverse.dropWhile
    Char.isWhitespace).reverse)

/-- The character list of the substring `"_100g"`. -/
def pat100g : List Char := "_100g".toList

/-- Fuel-indexed worker for `pyReplace100g`. -/
def pyReplace100gAux : Nat → List Char → List Char
  | 0, _ => []
  | _, [] => []
  | fuel + 1, c :: rest =>
    if pat100g.isPrefixOf (c :: rest) then
      pyReplace100gAux fuel ((c :: rest).drop pat100g.length)
    else
      c :: pyReplace100gAux fuel rest

/-- Python `s.replace("_100g", "")`: remove every occurrence. -/
def pyReplace100g (s : String) : String :=
  String.mk (pyReplace100gAux s.toList.length s.toList)

/-- Digits of a natural number, most significant first (worker). -/
def natDigitsAux : Nat → Nat → List Char
  | 0, _ => []
  | _, 0 => []
  | fuel + 1, n =>
    natDigitsAux fuel (n / 10) ++ [Char.ofNat (48 + n % 10)]

/-- Decimal rendering of a natural number, as Python `str` would print it. -/
def natRepr (n : Nat) : String :=
  if n = 0 then "0" else String.mk (natDigitsAux n n)

/-! ## Python values and dictionaries -/

/-- A JSON-style value stored in a product's `nutriments` mapping:
either a number (Python `int`/`float`) or a free-form string. -/
inductive PyVal where
  | num (q : ℚ)
  | str (s : String)
deriving DecidableEq, Repr

/-- Errors the embedded Python fragments can raise. -/
inductive PyErr where
  | valueError
  | typeError
deriving DecidableEq, Repr

/-- Nutrient mapping: association list (Python dict, insertion order). -/
abbrev Nutriments := List (String × PyVal)

/-- Python `d.get(key)` / `d.get(key, None)`: first matching key. -/
def pyDictGet : Nutriments → String → Option PyVal
  | [], _ => none
  | (k, v) :: rest, key => if k = key then some v else pyDictGet rest key

/-- Python `d.get(key1, d.get(key2, None))`. -/
def pyDictGet2 (ns : Nutriments) (key1 key2 : String) : Option PyVal :=
  match pyDictGet ns key1 with
  | some v => some v
  | none => pyDictGet ns key2

/-- Natural number denoted by a digit list. -/
def natOfDigits (ds : List Char) : Nat :=
  ds.foldl (fun a c => 10 * a + (c.toNat - 48)) 0

/-- Parse a decimal string of shape `digits` or `digits.digits` into the
rational it denotes (always succeeds on the captures of the percentage
scan): the digits on either side of the point form the numerator, scaled
by the length of the fractional part. -/
def decOfChars (cs : List Char) : ℚ :=
  let ip := cs.takeWhile Char.isDigit
  let rest := cs.drop ip.length
  match rest with
  | _ :: fs =>
    let fp := fs.takeWhile Char.isDigit
    mkRat (natOfDigits (ip ++ fp)) (10 ^ fp.length)
  | [] => mkRat (natOfDigits ip) 1

/-- Model of Python `float(s)` on a string: accepts optional sign and the
decimal forms `d+`, `d+.d*`, `.d+` (surrounding whitespace stripped);
anything else fails.  Scientific notation and the infinity forms never
occur in the data this plugin consults, so they are treated as failures. -/
def pyParseFloat (s : String) : Option ℚ :=
  let cs := (pyStrip s).toList
  let signed : Bool × List Char :=
    match cs with
    | c :: rest =>
      if c = '-' then (true, rest)
      else if c = '+' then (false, rest) else (false, cs)
    | [] => (false, cs)
  let body := signed.2
  let ip := body.takeWhile Char.isDigit
  let rest := body.drop ip.length
  let parsed : Option ℚ :=
    match rest with
    | [] => if ip.isEmpty then none else some (mkRat (natOfDigits ip) 1)
    | c :: rest2 =>
      if c = '.' then
        let fp := rest2.takeWhile Char.isDigit
        if rest2.drop fp.length = [] then
          if ip.isEmpty && fp.isEmpty then none
          else some (mkRat (natOfDigits (ip ++ fp)) (10 ^ fp.length))
        else none
      else none
  parsed.map (fun q => if signed.1 then -q else q)

/-- Python `float(value)` on a nutriment value: numbers pass through,
strings must parse as decimals, otherwise `ValueError` is raised. -/
def pyFloat : PyVal → Except PyErr ℚ
  | .num q => .ok q
  | .str s =>
    match pyParseFloat s with
    | some q => .ok q
    | none => .error .valueError

/-- Python `value > bound` where `bound` is numeric: a string operand
raises `TypeError`. -/
def pyGt (v : PyVal) (bound : ℚ) : Except PyErr Bool :=
  match v with
  | .num q => .ok (decide (bound < q))
  | .str _ => .error .typeError

/-! ## Data model -/

/-- A product record as returned by the catalog (plugin.py field access). -/
structure Product where
  product_name : String := ""
  generic_name : String := ""
  categories : String := ""
  labels : String := ""
  traces : String := ""
  ingredients_text : String := ""
  allergens_tags : List String := []
  labels_tags : List String := []
  categories_tags : List String := []
  additives_tags : List String := []
  ingredients_analysis_tags : List String := []
  nutriments : Nutriments := []
deriving Repr

/-- The user's dietary profile (plugin.py `USER_PROFILE`). -/
structure Profile where
  allergies : List String := []
  intolerances : List String := []
  dietary_preferences : List (String × Bool) := []
  avoid_additives : List String := []
  nutrient_limits : List (String × ℚ) := []
deriving Repr

/-- Python `dietary_prefs.get(name, False)`. -/
def prefGet : List (String × Bool) → String → Bool
  | [], _ => false
  | (k, b) :: rest, key => if k = key then b else prefGet rest key

/-- Search filter parameters (plugin.py `filters`, lines 150-165). -/
structure Filters where
  low_fat : Bool := false
  low_fiber : Bool := false
  low_sugar : Bool := false
  low_salt : Bool := false
  no_nuts : Bool := false
  max_calories : Option ℚ := none
  min_calories : Option ℚ := none
  max_fat : Option ℚ := none
  max_fiber : Option ℚ := none
  min_fiber : Option ℚ := none
  max_sugar : Option ℚ := none
  max_salt : Option ℚ := none
  min_protein : Option ℚ := none
  max_protein : Option ℚ := none
deriving Repr

/-! ## Filter limit resolution (plugin.py lines 168-176) -/

/-- `fat_limit = filters['max_fat'] if ... is not None else (3.0 if filters['low_fat'] else None)`. -/
def fat_limit (f : Filters) : Option ℚ :=
  match f.max_fat with
  | some v => some v
  | none => if f.low_fat then some 3 else none

/-- Fiber limit: explicit `max_fiber`, else 3.0 when `low_fiber`. -/
def fiber_limit (f : Filters) : Option ℚ :=
  match f.max_fiber with
  | some v => some v
  | none => if f.low_fiber then some 3 else none

/-- Sugar limit: explicit `max_sugar`, else 5.0 when `low_sugar`. -/
def sugar_limit (f : Filters) : Option ℚ :=
  match f.max_sugar with
  | some v => some v
  | none => if f.low_sugar then some 5 else none

/-- Salt limit: explicit `max_salt`, else 0.3 when `low_salt`. -/
def salt_limit (f : Filters) : Option ℚ :=
  match f.max_salt with
  | some v => some v
  | none => if f.low_salt then some (mkRat 3 10) else none

/-! ## Structured warnings, recommendations, rejection reasons -/

/-- Structured counterpart of the warning strings built by
`analyze_product_safety` and `check_diet_status`; each constructor
carries the data the source interpolates into the message. -/
inductive Warning where
  | allergy (name : String)
  | intolerance (name : String)
  | highNutrient (nutrient : String) (value limit : ℚ)
  | statusUnknownExplicit (dietType : String)
  | notDiet (dietType : String) (indicator : String)
  | insufficientInfo (dietType : String) (filteredOut : Bool)
  | avoidedAdditive (name : String)
deriving DecidableEq, Repr

/-- Structured counterpart of the recommendation strings. -/
inductive Rec where
  | lowSugarAlt
  | lowSaltAlt
deriving DecidableEq, Repr

/-- Structured counterpart of the rejection reason strings returned by
`meets_nutrient_filters`. -/
inductive Reason where
  | containsNuts
  | overLimit (name : String) (value limit : ℚ)
  | proteinUnder (value bound : ℚ)
  | proteinOver (value bound : ℚ)
  | caloriesUnder (value bound : ℚ)
  | fiberUnder (value bound : ℚ)
deriving DecidableEq, Repr

/-! ## Serialization of the nutriments mapping

`str(product.get('nutriments', \x7b\x7d))` in the source.  Integral
numbers print like Python ints; fractional values are expanded to
decimal digits (terminating decimals, which is all the plugin's data
contains, print exactly). -/

/-- Fractional decimal digits of `r / b` (worker, fuel-bounded). -/
def fracDigitsAux : Nat → Nat → Nat → List Char
  | 0, _, _ => []
  | _, 0, _ => []
  | fuel + 1, r, b =>
    let r10 := r * 10
    Char.ofNat (48 + r10 / b) :: fracDigitsAux fuel (r10 % b) b

/-- Decimal rendering of a rational, modelling Python `str` on numbers. -/
def ratRepr (q : ℚ) : String :=
  let sign := if q < 0 then "-" else ""
  let a := q.num.natAbs
  let b := q.den
  let ip := a / b
  let r := a % b
  if r = 0 then sign ++ natRepr ip
  else sign ++ natRepr ip ++ "." ++ String.mk (fracDigitsAux 30 r b)

/-- Python `str` of a single nutriment value inside the dict display. -/
def pyReprVal : PyVal → String
  | .num q => ratRepr q
  | .str s => String.singleton squoteChar ++ s ++ String.singleton squoteChar

/-- Python `str` of the nutriments dict:
`\x7b'key': value, ...\x7d`. -/
def pyStrOfNutriments (ns : Nutriments) : String :=
  String.singleton braceLChar ++
    String.intercalate ", "
      (ns.map (fun kv =>
        String.singleton squoteChar ++ kv.1 ++ String.singleton squoteChar ++
          ": " ++ pyReprVal kv.2)) ++
    String.singleton braceRChar

/-! ## The nut-percentage regular expression

Pattern (plugin.py lines 242 and 774):
`[^\x7b\x7d'\"]*(?:nuts|nut|walnut|almond|peanut|cashew|pistachio|hazelnut|pecan|macadamia)[^\x7b\x7d'\"]*?(\d+(?:\.\d+)?)\s*%`
run with `re.findall`, which returns the list of group-1 captures of the
successive non-overlapping leftmost matches.  The matcher below follows
Python semantics exactly: the leading character class is greedy (longest
first), the alternation is tried left to right, the middle class is lazy
(shortest first). -/

/-- Characters admitted by the `[^\x7b\x7d'\"]` class. -/
def okChar (c : Char) : Bool :=
  !(c = braceLChar || c = braceRChar || c = squoteChar || c = dquoteChar)

/-- Alternation branches of the pattern, in source order. -/
def regexNutWords : List (List Char) :=
  ["nuts", "nut", "walnut", "almond", "peanut", "cashew", "pistachio",
   "hazelnut", "pecan", "macadamia"].map String.toList

/-- Match `\s*%` at the head; returns the number of consumed characters. -/
def tailPct (s : List Char) : Option Nat :=
  let ws := s.takeWhile Char.isWhitespace
  match s.drop ws.length with
  | c :: _ => if c = '%' then some (ws.length + 1) else none
  | [] => none

/-- Match `(\d+(?:\.\d+)?)\s*%` at the head; returns the captured number
characters and the total characters consumed.  The digit runs are greedy;
a shorter digit run can never rescue a failed continuation (the next
pattern element accepts no digit), so no backtracking inside the runs is
needed; the optional fraction is tried with-then-without as Python does. -/
def matchNumAt (s : List Char) : Option (List Char × Nat) :=
  let ds := s.takeWhile Char.isDigit
  if ds.isEmpty then none
  else
    let r1 := s.drop ds.length
    let withFrac : Option (List Char × Nat) :=
      match r1 with
      | c :: r2 =>
        if c = '.' then
          let fs := r2.takeWhile Char.isDigit
          if fs.isEmpty then none
          else
            match tailPct (r2.drop fs.length) with
            | some t => some (ds ++ '.' :: fs, ds.length + 1 + fs.length + t)
            | none => none
        else none
      | [] => none
    match withFrac with
    | some r => some r
    | none =>
      match tailPct r1 with
      | some t => some (ds, ds.length + t)
      | none => none

/-- Lazy `[^\x7b\x7d'\"]*?` followed by the number-and-percent tail:
try the empty middle first, then grow it one admitted character at a
time, as a lazy star does. -/
def lazyMid : List Char → Option (List Char × Nat)
  | [] => none
  | c :: rest =>
    match matchNumAt (c :: rest) with
    | some r => some r
    | none =>
      if okChar c then
        match lazyMid rest with
        | some (cap, n) => some (cap, n + 1)
        | none => none
      else none

/-- Ordered alternation over the nut words followed by the rest of the
pattern; a branch whose continuation fails backtracks to the next word. -/
def tryNutWords : List (List Char) → List Char → Option (List Char × Nat)
  | [], _ => none
  | kw :: kws, s =>
    if kw.isPrefixOf s then
      match lazyMid (s.drop kw.length) with
      | some (cap, n) => some (cap, kw.length + n)
      | none => tryNutWords kws s
    else tryNutWords kws s

/-- Greedy leading `[^\x7b\x7d'\"]*`: try the longest admitted prefix
first and back off, as a greedy star does.  The argument is the prefix
length currently being tried. -/
def tryLeadDesc (s : List Char) : Nat → Option (List Char × Nat)
  | 0 => tryNutWords regexNutWords s
  | a + 1 =>
    match tryNutWords regexNutWords (s.drop (a + 1)) with
    | some (cap, n) => some (cap, a + 1 + n)
    | none => tryLeadDesc s a

/-- Attempt a match of the whole pattern anchored at the head of `s`. -/
def matchPatAt (s : List Char) : Option (List Char × Nat) :=
  tryLeadDesc s (s.takeWhile okChar).length

/-- `re.findall` scan: try a match at each position, emit the capture and
resume after the match (every match consumes at least the percent sign),
otherwise advance one character. -/
def findallAux : Nat → List Char → List (List Char)
  | 0, _ => []
  | fuel + 1, s =>
    match matchPatAt s with
    | some (cap, n) => cap :: findallAux fuel (s.drop (max n 1))
    | none =>
      match s with
      | [] => []
      | _ :: rest => findallAux fuel rest

/-- All group-1 captures of the nut-percentage pattern in `s`. -/
def nutsPercentMatches (s : String) : List (List Char) :=
  findallAux (s.toList.length + 1) s.toList

/-! ## Nut detection (plugin.py lines 207-272 and 739-804, identical) -/

/-- The fixed nut-family keyword list (plugin.py lines 209-214, 741-746). -/
def nuts_keywords : List String :=
  ["nuts", "nut", "almond", "walnut", "peanut", "cashew",
   "pistachio", "hazelnut", "pecan", "macadamia", "brazil nut",
   "pine nut", "chestnut", "beechnut", "hickory nut",
   "may contain nuts", "may contain nut", "tree nuts"]

/-- Explicit warning phrases checked when the percentage scan finds no
percentage figure. -/
def nutPhrases : List String :=
  ["may contain nuts", "may contain nut", "contains nuts", "contains nut"]

/-- Percentage-aware scan of the stringified nutriments (already
lowercased): a keyword hit plus either a positive extracted percentage or
an explicit warning phrase.  All percentages parsing to exactly 0 suppress
the match. -/
def has_nut_in_nutriments (nutriments_str : String) : Bool :=
  if nuts_keywords.any (fun kw => pyIn kw nutriments_str) then
    let ms := nutsPercentMatches nutriments_str
    if !ms.isEmpty then
      ms.any (fun cap => decide ((0 : ℚ) < decOfChars cap))
    else
      nutPhrases.any (fun ph => pyIn ph nutriments_str)
  else false

/-- Full nut detection over a product: allergen tags, ingredients text,
auxiliary text and tag fields, and the percentage-aware nutriments scan.
This block appears verbatim both in `meets_nutrient_filters`
(lines 207-272) and in the nuts-allergy branch of
`analyze_product_safety` (lines 739-804). -/
def nut_detected (p : Product) : Bool :=
  let ingredients_text := pyLower p.ingredients_text
  let has_nut_allergen := p.allergens_tags.any (fun a => pyIn "nut" (pyLower a))
  let has_nut_ingredient :=
    nuts_keywords.any (fun kw => pyIn kw ingredients_text)
  let strFields :=
    [pyLower p.product_name, pyLower p.generic_name, pyLower p.categories,
     pyLower p.labels, pyLower p.traces]
  let listFields :=
    [p.ingredients_analysis_tags, p.categories_tags, p.labels_tags]
  let has_nut_in_additional_fields :=
    strFields.any (fun fld => nuts_keywords.any (fun kw => pyIn kw fld)) ||
      listFields.any (fun l =>
        l.any (fun item => nuts_keywords.any (fun kw => pyIn kw (pyLower item))))
  let nutriments_str := pyLower (pyStrOfNutriments p.nutriments)
  has_nut_allergen || has_nut_ingredient ||
    has_nut_in_nutriments nutriments_str || has_nut_in_additional_fields

/-! ## Search filter evaluation (plugin.py lines 201-311) -/

/-- The ordered standard limit table (plugin.py lines 276-282):
calories, fat, fiber, sugar, salt, each with its primary and fallback
nutriment key and display name. -/
def limitTable (f : Filters) : List (Option ℚ × String × String × String) :=
  [(f.max_calories, "energy-kcal_100g", "energy-kcal", "Calories"),
   (fat_limit f, "fat_100g", "fat", "Fat"),
   (fiber_limit f, "fiber_100g", "fiber", "Fiber"),
   (sugar_limit f, "sugars_100g", "sugars", "Sugar"),
   (salt_limit f, "salt_100g", "salt", "Salt")]

/-- The `for limit, key1, key2, name in limits` loop (lines 284-288):
first violated maximum wins; `float` of a non-numeric string raises. -/
def checkMaxLimits (ns : Nutriments) :
    List (Option ℚ × String × String × String) → Except PyErr (Option Reason)
  | [] => .ok none
  | (lim, key1, key2, nm) :: rest =>
    match lim with
    | none => checkMaxLimits ns rest
    | some l =>
      match pyDictGet2 ns key1 key2 with
      | none => checkMaxLimits ns rest
      | some v =>
        match pyFloat v with
        | .error e => .error e
        | .ok x =>
          if l < x then .ok (some (.overLimit nm x l))
          else checkMaxLimits ns rest

/-- `meets_nutrient_filters(product)` (plugin.py lines 201-311): nut
filter first, then maxima in table order, then protein min/max, minimum
calories and minimum fiber; the first failing check wins.  Missing
values never reject; non-numeric values raise through `float`. -/
def meets_nutrient_filters (f : Filters) (p : Product) :
    Except PyErr (Bool × Option Reason) :=
  if f.no_nuts && nut_detected p then .ok (false, some .containsNuts)
  else
    let ns := p.nutriments
    match checkMaxLimits ns (limitTable f) with
    | .error e => .error e
    | .ok (some r) => .ok (false, some r)
    | .ok none =>
      let proteinStep : Except PyErr (Option Reason) :=
        match pyDictGet2 ns "proteins_100g" "proteins" with
        | none => .ok none
        | some v =>
          match pyFloat v with
          | .error e => .error e
          | .ok x =>
            match f.min_protein with
            | some mn =>
              if x < mn then .ok (some (.proteinUnder x mn))
              else
                match f.max_protein with
                | some mx => if mx < x then .ok (some (.proteinOver x mx)) else .ok none
                | none => .ok none
            | none =>
              match f.max_protein with
              | some mx => if mx < x then .ok (some (.proteinOver x mx)) else .ok none
              | none => .ok none
      match proteinStep with
      | .error e => .error e
      | .ok (some r) => .ok (false, some r)
      | .ok none =>
        let minCalStep : Except PyErr (Option Reason) :=
          match f.min_calories with
          | none => .ok none
          | some mn =>
            match pyDictGet2 ns "energy-kcal_100g" "energy-kcal" with
            | none => .ok none
            | some v =>
              match pyFloat v with
              | .error e => .error e
              | .ok x => if x < mn then .ok (some (.caloriesUnder x mn)) else .ok none
        match minCalStep with
        | .error e => .error e
        | .ok (some r) => .ok (false, some r)
        | .ok none =>
          let minFiberStep : Except PyErr (Option Reason) :=
            match f.min_fiber with
            | none => .ok none
            | some mn =>
              match pyDictGet2 ns "fiber_100g" "fiber" with
              | none => .ok none
              | some v =>
                match pyFloat v with
                | .error e => .error e
                | .ok x => if x < mn then .ok (some (.fiberUnder x mn)) else .ok none
          match minFiberStep with
          | .error e => .error e
          | .ok (some r) => .ok (false, some r)
          | .ok none => .ok (true, none)

/-- `has_nutrient_filters` (plugin.py lines 317-324). -/
def has_nutrient_filters (f : Filters) : Bool :=
  f.low_fat || f.low_fiber || f.low_sugar || f.low_salt || f.no_nuts ||
    f.max_calories.isSome || f.min_calories.isSome || (fat_limit f).isSome ||
    (fiber_limit f).isSome || f.min_fiber.isSome || (sugar_limit f).isSome ||
    (salt_limit f).isSome || f.min_protein.isSome || f.max_protein.isSome

/-! ## Diet status classification (plugin.py lines 839-860) -/

/-- Negative indicators for the vegan preference (line 863). -/
def non_vegan_indicators : List String :=
  ["milk", "egg", "meat", "fish", "honey", "gelatin", "whey", "casein",
   "dairy", "cheese", "butter", "cream", "lactose", "chicken", "beef",
   "pork", "bacon", "lard"]

/-- Negative indicators for the vegetarian preference (line 868). -/
def non_vegetarian_indicators : List String :=
  ["meat", "fish", "chicken", "beef", "pork", "bacon", "lard", "gelatin",
   "anchovies", "tuna", "salmon", "cod"]

/-- `check_diet_status(diet_type, non_diet_indicators)` (lines 839-860).
`ingredients_text` is the lowercased ingredients text of the enclosing
`analyze_product_safety` call; warnings are appended to the accumulator
the closure mutates.  Returns the updated warnings and the compliance
flag. -/
def check_diet_status (ingredients_text : String) (labels_tags : List String)
    (strict_mode : Bool) (diet_type : String) (non_diet_indicators : List String)
    (warnings : List Warning) : List Warning × Bool :=
  if pyIn (diet_type ++ " status unknown") (pyLower ingredients_text) then
    (warnings ++ [.statusUnknownExplicit diet_type], false)
  else if labels_tags.any (fun lab => pyIn diet_type (pyLower lab)) then
    (warnings, true)
  else
    match non_diet_indicators.find?
        (fun ind => pyIn ind (pyLower ingredients_text)) with
    | some ind => (warnings ++ [.notDiet diet_type ind], false)
    | none =>
      if ingredients_text.isEmpty || (pyStrip ingredients_text).length < 20 then
        (warnings ++ [.insufficientInfo diet_type strict_mode],
         if strict_mode then false else true)
      else (warnings, true)

/-! ## Safety analyzer stages (plugin.py lines 711-889) -/

/-- One iteration of the allergy loop (lines 736-812): the nuts family
uses the specialized detector, every other allergy matches on allergen
tags or the ingredients text. -/
def allergyStep (p : Product) (ingredients_text : String)
    (acc : List Warning × Bool) (allergy : String) : List Warning × Bool :=
  if pyLower allergy = "nuts" || pyLower allergy = "nut" ||
      pyLower allergy = "tree nuts" then
    if nut_detected p then (acc.1 ++ [.allergy allergy], false) else acc
  else
    if p.allergens_tags.any (fun tag => pyIn (pyLower allergy) (pyLower tag)) ||
        pyIn (pyLower allergy) ingredients_text then
      (acc.1 ++ [.allergy allergy], false)
    else acc

/-- The allergy loop over the profile's allergy list. -/
def checkAllergies (allergies : List String) (p : Product)
    (ingredients_text : String) (acc : List Warning × Bool) :
    List Warning × Bool :=
  allergies.foldl (allergyStep p ingredients_text) acc

/-- One iteration of the intolerance loop (lines 816-821): a substring
hit warns always and disqualifies only in strict mode. -/
def intoleranceStep (ingredients_text : String) (strict_mode : Bool)
    (acc : List Warning × Bool) (intolerance : String) : List Warning × Bool :=
  if pyIn (pyLower intolerance) ingredients_text then
    (acc.1 ++ [.intolerance intolerance], if strict_mode then false else acc.2)
  else acc

/-- The intolerance loop. -/
def checkIntolerances (intolerances : List String) (ingredients_text : String)
    (strict_mode : Bool) (acc : List Warning × Bool) : List Warning × Bool :=
  intolerances.foldl (intoleranceStep ingredients_text strict_mode) acc

/-- `nutriments.get(nutrient, nutriments.get(nutrient.replace("_100g", ""), 0))`
(line 829). -/
def resolveLimitVal (ns : Nutriments) (nutrient : String) : PyVal :=
  match pyDictGet ns nutrient with
  | some v => v
  | none => (pyDictGet ns (pyReplace100g nutrient)).getD (.num 0)

/-- One iteration of the profile nutrient-limit loop (lines 828-833):
only numeric values are compared, a hit warns always and disqualifies
only in strict mode. -/
def nutrientLimitStep (ns : Nutriments) (strict_mode : Bool)
    (acc : List Warning × Bool) (entry : String × ℚ) : List Warning × Bool :=
  match resolveLimitVal ns entry.1 with
  | .num q =>
    if entry.2 < q then
      (acc.1 ++ [.highNutrient entry.1 q entry.2],
       if strict_mode then false else acc.2)
    else acc
  | .str _ => acc

/-- The profile nutrient-limit loop. -/
def checkNutrientLimits (limits : List (String × ℚ)) (ns : Nutriments)
    (strict_mode : Bool) (acc : List Warning × Bool) : List Warning × Bool :=
  limits.foldl (nutrientLimitStep ns strict_mode) acc

/-- The vegan preference check (lines 862-865): run the diet status
classifier and downgrade the verdict on non-compliance. -/
def checkVegan (prefs : List (String × Bool)) (p : Product)
    (ingredients_text : String) (strict_mode : Bool)
    (acc : List Warning × Bool) : List Warning × Bool :=
  if prefGet prefs "vegan" then
    let r := check_diet_status ingredients_text p.labels_tags strict_mode
      "vegan" non_vegan_indicators acc.1
    (r.1, if r.2 then acc.2 else false)
  else acc

/-- The vegetarian preference check (lines 867-870). -/
def checkVegetarian (prefs : List (String × Bool)) (p : Product)
    (ingredients_text : String) (strict_mode : Bool)
    (acc : List Warning × Bool) : List Warning × Bool :=
  if prefGet prefs "vegetarian" then
    let r := check_diet_status ingredients_text p.labels_tags strict_mode
      "vegetarian" non_vegetarian_indicators acc.1
    (r.1, if r.2 then acc.2 else false)
  else acc

/-- One iteration of the avoided-additive loop (lines 876-880). -/
def additiveStep (additives_tags : List String) (strict_mode : Bool)
    (acc : List Warning × Bool) (additive : String) : List Warning × Bool :=
  if additives_tags.any (fun tag => pyIn (pyLower additive) (pyLower tag)) then
    (acc.1 ++ [.avoidedAdditive additive], if strict_mode then false else acc.2)
  else acc

/-- The avoided-additive loop. -/
def checkAdditives (avoid_additives : List String)
    (additives_tags : List String) (strict_mode : Bool)
    (acc : List Warning × Bool) : List Warning × Bool :=
  avoid_additives.foldl (additiveStep additives_tags strict_mode) acc

/-- The warning/verdict accumulation of `analyze_product_safety`
(lines 727-880): allergies, intolerances, profile nutrient limits, vegan
and vegetarian preferences, avoided additives, in source order, starting
from `([], True)`. -/
def analyzeSafety (prof : Profile) (p : Product) (strict_mode : Bool) :
    List Warning × Bool :=
  let ingredients_text := pyLower p.ingredients_text
  let acc1 := checkAllergies prof.allergies p ingredients_text ([], true)
  let acc2 := checkIntolerances prof.intolerances ingredients_text strict_mode acc1
  let acc3 := checkNutrientLimits prof.nutrient_limits p.nutriments strict_mode acc2
  let acc4 := checkVegan prof.dietary_preferences p ingredients_text strict_mode acc3
  let acc5 := checkVegetarian prof.dietary_preferences p ingredients_text strict_mode acc4
  checkAdditives prof.avoid_additives p.additives_tags strict_mode acc5

/-- The recommendation generation (lines 882-887): each preference gate
short-circuits, and the comparison `value > threshold` raises `TypeError`
on a string value (Python `str > int`). -/
def recommendStage (prefs : List (String × Bool)) (ns : Nutriments) :
    Except PyErr (List Rec) :=
  match (if prefGet prefs "low_sugar" then
           pyGt ((pyDictGet ns "sugars_100g").getD (.num 0)) 5
         else .ok false) with
  | .error e => .error e
  | .ok b1 =>
    match (if prefGet prefs "low_salt" then
             pyGt ((pyDictGet ns "salt_100g").getD (.num 0)) (mkRat 3 2)
           else .ok false) with
    | .error e => .error e
    | .ok b2 =>
      .ok ((if b1 then [Rec.lowSugarAlt] else []) ++
           (if b2 then [Rec.lowSaltAlt] else []))

/-- The classification verdict. -/
structure Verdict where
  is_safe : Bool
  warnings : List Warning
  recommendations : List Rec
deriving DecidableEq, Repr

/-- `analyze_product_safety(product_data, strict_mode)` (lines 711-889):
no active profile short-circuits to a trivially safe verdict; otherwise
the safety stages run, then recommendations are generated. -/
def analyze_product_safety (profile : Option Profile) (p : Product)
    (strict_mode : Bool) : Except PyErr Verdict :=
  match profile with
  | none => .ok ⟨true, [], []⟩
  | some prof =>
    let ws := analyzeSafety prof p strict_mode
    match recommendStage prof.dietary_preferences p.nutriments with
    | .error e => .error e
    | .ok recs => .ok ⟨ws.2, ws.1, recs⟩

/-! ## The search candidate loop (plugin.py lines 313-400) -/

/-- The `for i, product in enumerate(products)` loop of
`search_food_product`, tracking `total_checked` and the number of
admitted results.  A product failing the nutrient filters is skipped
with `continue`, which bypasses the stop test at the bottom of the loop
body; an admitted product is analyzed and then the loop stops once 10
results are admitted or `total_checked` has reached 50. -/
def searchLoop (f : Filters) (profile : Option Profile) :
    List Product → Nat → Nat → Except PyErr (Nat × Nat)
  | [], total_checked, admitted => .ok (total_checked, admitted)
  | p :: rest, total_checked, admitted =>
    let tc := total_checked + 1
    if has_nutrient_filters f then
      match meets_nutrient_filters f p with
      | .error e => .error e
      | .ok (false, _) => searchLoop f profile rest tc admitted
      | .ok (true, _) =>
        match analyze_product_safety profile p false with
        | .error e => .error e
        | .ok _ =>
          if admitted + 1 ≥ 10 || tc ≥ 50 then .ok (tc, admitted + 1)
          else searchLoop f profile rest tc (admitted + 1)
    else
      match analyze_product_safety profile p false with
      | .error e => .error e
      | .ok _ =>
        if admitted + 1 ≥ 10 || tc ≥ 50 then .ok (tc, admitted + 1)
        else searchLoop f profile rest tc (admitted + 1)

/-! ## Invariant lemmas about the analyzer stages -/

/-- Verdict-downgrade invariant: an unsafe accumulator carries at least
one warning. -/
def accInv (acc : List Warning × Bool) : Prop := acc.2 = false → acc.1 ≠ []

lemma ne_nil_append {α : Type} {w : List α} (h : w ≠ []) (t : List α) :
    w ++ t ≠ [] := by
  cases w with
  | nil => exact absurd rfl h
  | cons a l => simp

lemma foldl_inv {α β : Type} (f : β → α → β) (P : β → Prop)
    (hf : ∀ b a, P b → P (f b a)) :
    ∀ (l : List α) (b : β), P b → P (l.foldl f b) := by
  intro l
  induction l with
  | nil => intro b hb; exact hb
  | cons a l ih => intro b hb; exact ih (f b a) (hf b a hb)

lemma foldl_warn_ext {α : Type} (f : List Warning × Bool → α → List Warning × Bool)
    (hf : ∀ b a, ∃ u, (f b a).1 = b.1 ++ u) :
    ∀ (l : List α) (b : List Warning × Bool), ∃ t, (l.foldl f b).1 = b.1 ++ t := by
  intro l
  induction l with
  | nil => intro b; exact ⟨[], (List.append_nil _).symm⟩
  | cons a l ih =>
    intro b
    obtain ⟨u, hu⟩ := hf b a
    obtain ⟨t, ht⟩ := ih (f b a)
    exact ⟨u ++ t, by rw [List.foldl_cons, ht, hu, List.append_assoc]⟩

lemma allergyStep_inv (p : Product) (ingr : String)
    (acc : List Warning × Bool) (al : String) (h : accInv acc) :
    accInv (allergyStep p ingr acc al) := by
  unfold allergyStep
  split
  · split
    · intro _; simp
    · exact h
  · split
    · intro _; simp
    · exact h

lemma allergyStep_ext (p : Product) (ingr : String)
    (acc : List Warning × Bool) (al : String) :
    ∃ u, (allergyStep p ingr acc al).1 = acc.1 ++ u := by
  unfold allergyStep
  split
  · split
    · exact ⟨_, rfl⟩
    · exact ⟨[], (List.append_nil _).symm⟩
  · split
    · exact ⟨_, rfl⟩
    · exact ⟨[], (List.append_nil _).symm⟩

lemma allergyStep_false (p : Product) (ingr : String)
    (acc : List Warning × Bool) (al : String) (h : acc.2 = false) :
    (allergyStep p ingr acc al).2 = false := by
  unfold allergyStep
  split
  · split
    · rfl
    · exact h
  · split
    · rfl
    · exact h

lemma intoleranceStep_inv (ingr : String) (strict : Bool)
    (acc : List Warning × Bool) (x : String) (h : accInv acc) :
    accInv (intoleranceStep ingr strict acc x) := by
  unfold intoleranceStep
  split
  · intro _; simp
  · exact h

lemma intoleranceStep_ext (ingr : String) (strict : Bool)
    (acc : List Warning × Bool) (x : String) :
    ∃ u, (intoleranceStep ingr strict acc x).1 = acc.1 ++ u := by
  unfold intoleranceStep
  split
  · exact ⟨_, rfl⟩
  · exact ⟨[], (List.append_nil _).symm⟩

lemma intoleranceStep_false (ingr : String) (strict : Bool)
    (acc : List Warning × Bool) (x : String) (h : acc.2 = false) :
    (intoleranceStep ingr strict acc x).2 = false := by
  unfold intoleranceStep
  split
  · cases strict <;> simp [h]
  · exact h

lemma nutrientLimitStep_inv (ns : Nutriments) (strict : Bool)
    (acc : List Warning × Bool) (e : String × ℚ) (h : accInv acc) :
    accInv (nutrientLimitStep ns strict acc e) := by
  unfold nutrientLimitStep
  split
  · split
    · intro _; simp
    · exact h
  · exact h

lemma nutrientLimitStep_ext (ns : Nutriments) (strict : Bool)
    (acc : List Warning × Bool) (e : String × ℚ) :
    ∃ u, (nutrientLimitStep ns strict acc e).1 = acc.1 ++ u := by
  unfold nutrientLimitStep
  split
  · split
    · exact ⟨_, rfl⟩
    · exact ⟨[], (List.append_nil _).symm⟩
  · exact ⟨[], (List.append_nil _).symm⟩

lemma nutrientLimitStep_false (ns : Nutriments) (strict : Bool)
    (acc : List Warning × Bool) (e : String × ℚ) (h : acc.2 = false) :
    (nutrientLimitStep ns strict acc e).2 = false := by
  unfold nutrientLimitStep
  split
  · split
    · cases strict <;> simp [h]
    · exact h
  · exact h

lemma additiveStep_inv (tags : List String) (strict : Bool)
    (acc : List Warning × Bool) (x : String) (h : accInv acc) :
    accInv (additiveStep tags strict acc x) := by
  unfold additiveStep
  split
  · intro _; simp
  · exact h

lemma additiveStep_ext (tags : List String) (strict : Bool)
    (acc : List Warning × Bool) (x : String) :
    ∃ u, (additiveStep tags strict acc x).1 = acc.1 ++ u := by
  unfold additiveStep
  split
  · exact ⟨_, rfl⟩
  · exact ⟨[], (List.append_nil _).symm⟩

lemma additiveStep_false (tags : List String) (strict : Bool)
    (acc : List Warning × Bool) (x : String) (h : acc.2 = false) :
    (additiveStep tags strict acc x).2 = false := by
  unfold additiveStep
  split
  · cases strict <;> simp [h]
  · exact h

lemma cds_ext (ingr : String) (labels : List String) (strict : Bool)
    (dt : String) (inds : List String) (w : List Warning) :
    ∃ t, (check_diet_status ingr labels strict dt inds w).1 = w ++ t := by
  unfold check_diet_status
  split
  · exact ⟨_, rfl⟩
  · split
    · exact ⟨[], (List.append_nil _).symm⟩
    · split
      · exact ⟨_, rfl⟩
      · split
        · exact ⟨_, rfl⟩
        · exact ⟨[], (List.append_nil _).symm⟩

lemma cds_false_ne_nil (ingr : String) (labels : List String) (strict : Bool)
    (dt : String) (inds : List String) (w : List Warning)
    (h : (check_diet_status ingr labels strict dt inds w).2 = false) :
    (check_diet_status ingr labels strict dt inds w).1 ≠ [] := by
  unfold check_diet_status at h ⊢
  by_cases h1 : pyIn (dt ++ " status unknown") (pyLower ingr) = true
  · rw [if_pos h1]
    simp
  · rw [if_neg h1] at h ⊢
    by_cases h2 : labels.any (fun lab => pyIn dt (pyLower lab)) = true
    · rw [if_pos h2] at h
      exact absurd h (by simp)
    · rw [if_neg h2] at h ⊢
      revert h
      cases h3 : inds.find? (fun ind => pyIn ind (pyLower ingr)) with
      | some ind =>
        intro _
        simp
      | none =>
        intro h
        dsimp only at h ⊢
        by_cases h4 : (ingr.isEmpty || decide ((pyStrip ingr).length < 20)) = true
        · rw [if_pos h4]
          simp
        · rw [if_neg h4] at h
          exact absurd h (by simp)

lemma checkVegan_inv (prefs : List (String × Bool)) (p : Product)
    (ingr : String) (strict : Bool) (acc : List Warning × Bool)
    (h : accInv acc) : accInv (checkVegan prefs p ingr strict acc) := by
  unfold checkVegan
  split
  · intro h2
    simp only at h2
    cases hc : (check_diet_status ingr p.labels_tags strict "vegan"
        non_vegan_indicators acc.1).2 with
    | false =>
      exact cds_false_ne_nil ingr p.labels_tags strict "vegan"
        non_vegan_indicators acc.1 hc
    | true =>
      rw [hc] at h2
      simp only [if_true] at h2
      obtain ⟨t, ht⟩ := cds_ext ingr p.labels_tags strict "vegan"
        non_vegan_indicators acc.1
      rw [ht]
      exact ne_nil_append (h h2) t
  · exact h

lemma checkVegan_ext (prefs : List (String × Bool)) (p : Product)
    (ingr : String) (strict : Bool) (acc : List Warning × Bool) :
    ∃ t, (checkVegan prefs p ingr strict acc).1 = acc.1 ++ t := by
  unfold checkVegan
  split
  · exact cds_ext ingr p.labels_tags strict "vegan" non_vegan_indicators acc.1
  · exact ⟨[], (List.append_nil _).symm⟩

lemma checkVegan_false (prefs : List (String × Bool)) (p : Product)
    (ingr : String) (strict : Bool) (acc : List Warning × Bool)
    (h : acc.2 = false) : (checkVegan prefs p ingr strict acc).2 = false := by
  unfold checkVegan
  split
  · simp only
    split
    · exact h
    · rfl
  · exact h

lemma checkVegetarian_inv (prefs : List (String × Bool)) (p : Product)
    (ingr : String) (strict : Bool) (acc : List Warning × Bool)
    (h : accInv acc) : accInv (checkVegetarian prefs p ingr strict acc) := by
  unfold checkVegetarian
  split
  · intro h2
    simp only at h2
    cases hc : (check_diet_status ingr p.labels_tags strict "vegetarian"
        non_vegetarian_indicators acc.1).2 with
    | false =>
      exact cds_false_ne_nil ingr p.labels_tags strict "vegetarian"
        non_vegetarian_indicators acc.1 hc
    | true =>
      rw [hc] at h2
      simp only [if_true] at h2
      obtain ⟨t, ht⟩ := cds_ext ingr p.labels_tags strict "vegetarian"
        non_vegetarian_indicators acc.1
      rw [ht]
      exact ne_nil_append (h h2) t
  · exact h

lemma checkVegetarian_ext (prefs : List (String × Bool)) (p : Product)
    (ingr : String) (strict : Bool) (acc : List Warning × Bool) :
    ∃ t, (checkVegetarian prefs p ingr strict acc).1 = acc.1 ++ t := by
  unfold checkVegetarian
  split
  · exact cds_ext ingr p.labels_tags strict "vegetarian"
      non_vegetarian_indicators acc.1
  · exact ⟨[], (List.append_nil _).symm⟩

lemma checkVegetarian_false (prefs : List (String × Bool)) (p : Product)
    (ingr : String) (strict : Bool) (acc : List Warning × Bool)
    (h : acc.2 = false) : (checkVegetarian prefs p ingr strict acc).2 = false := by
  unfold checkVegetarian
  split
  · simp only
    split
    · exact h
    · rfl
  · exact h

lemma checkAdditives_inv (adds : List String) (tags : List String)
    (strict : Bool) (acc : List Warning × Bool) (h : accInv acc) :
    accInv (checkAdditives adds tags strict acc) :=
  foldl_inv _ accInv (fun b a hb => additiveStep_inv tags strict b a hb) adds acc h

lemma checkAdditives_ext (adds : List String) (tags : List String)
    (strict : Bool) (acc : List Warning × Bool) :
    ∃ t, (checkAdditives adds tags strict acc).1 = acc.1 ++ t :=
  foldl_warn_ext _ (fun b a => additiveStep_ext tags strict b a) adds acc

lemma checkAdditives_false (adds : List String) (tags : List String)
    (strict : Bool) (acc : List Warning × Bool) (h : acc.2 = false) :
    (checkAdditives adds tags strict acc).2 = false :=
  foldl_inv _ (fun b => b.2 = false)
    (fun b a hb => additiveStep_false tags strict b a hb) adds acc h

lemma checkNutrientLimits_false (limits : List (String × ℚ)) (ns : Nutriments)
    (strict : Bool) (acc : List Warning × Bool) (h : acc.2 = false) :
    (checkNutrientLimits limits ns strict acc).2 = false :=
  foldl_inv _ (fun b => b.2 = false)
    (fun b a hb => nutrientLimitStep_false ns strict b a hb) limits acc h

lemma checkNutrientLimits_ext (limits : List (String × ℚ)) (ns : Nutriments)
    (strict : Bool) (acc : List Warning × Bool) :
    ∃ t, (checkNutrientLimits limits ns strict acc).1 = acc.1 ++ t :=
  foldl_warn_ext _ (fun b a => nutrientLimitStep_ext ns strict b a) limits acc

/-- A violated profile nutrient limit forces the accumulator's safety
flag to `false` in strict mode and records the HIGH-nutrient warning. -/
lemma checkNutrientLimits_hit (ns : Nutriments) (k : String) (lim q : ℚ)
    (hval : resolveLimitVal ns k = .num q) (hgt : lim < q) :
    ∀ (l : List (String × ℚ)) (acc : List Warning × Bool), (k, lim) ∈ l →
      (checkNutrientLimits l ns true acc).2 = false ∧
        Warning.highNutrient k q lim ∈ (checkNutrientLimits l ns true acc).1 := by
  intro l
  induction l with
  | nil => intro acc hmem; cases hmem
  | cons e l ih =>
    intro acc hmem
    unfold checkNutrientLimits at ih ⊢
    rw [List.foldl_cons]
    rcases List.mem_cons.mp hmem with he | hm
    · subst he
      have hstep : nutrientLimitStep ns true acc (k, lim) =
          (acc.1 ++ [.highNutrient k q lim], false) := by
        unfold nutrientLimitStep
        dsimp only
        rw [hval]
        simp [hgt]
      rw [hstep]
      refine ⟨?_, ?_⟩
      · exact foldl_inv _ (fun b => b.2 = false)
          (fun b a hb => nutrientLimitStep_false ns true b a hb) l
          (acc.1 ++ [Warning.highNutrient k q lim], false) rfl
      · obtain ⟨t, ht⟩ :=
          foldl_warn_ext _ (fun b a => nutrientLimitStep_ext ns true b a) l
            (acc.1 ++ [Warning.highNutrient k q lim], false)
        rw [ht]
        simp
    · exact ih (nutrientLimitStep ns true acc e) hm

lemma string_mk_length (l : List Char) : (String.mk l).length = l.length := rfl

lemma string_toList_length (s : String) : s.toList.length = s.length := rfl

lemma dropWhile_length_le (p : Char → Bool) :
    ∀ l : List Char, (l.dropWhile p).length ≤ l.length := by
  intro l
  induction l with
  | nil => exact Nat.le_refl 0
  | cons c t ih =>
    rw [List.dropWhile_cons]
    split
    · exact Nat.le_trans ih (Nat.le_succ _)
    · exact Nat.le_refl _

lemma pyStrip_length_le (s : String) : (pyStrip s).length ≤ s.length := by
  unfold pyStrip
  rw [string_mk_length, List.length_reverse]
  refine Nat.le_trans (dropWhile_length_le _ _) ?_
  rw [List.length_reverse]
  exact Nat.le_trans (dropWhile_length_le _ _) (Nat.le_of_eq (string_toList_length s))

/-! ## Claims -/

/-- C1.  The claim states that classification and filter evaluation are
total and treat non-numeric or absent nutrient values as "filter not
applicable".  The code violates this: `meets_nutrient_filters` calls
`float(value)` on whatever the nutriments mapping holds, so a
non-numeric string raises `ValueError` (plugin.py line 287), and the
recommendation stage compares a raw nutriment value with `>`, so a
non-numeric string raises `TypeError` (line 883).  The profile
nutrient-limit stage (line 830), by contrast, guards with `isinstance`
and tolerates the same value — the unguarded sites contradict the
code's own convention and its specified error taxonomy. -/
theorem c1_nonNumeric_raises :
    meets_nutrient_filters { max_fat := some 3 }
        { nutriments := [("fat_100g", PyVal.str "unknown")] } =
      Except.error PyErr.valueError ∧
    analyze_product_safety
        (some { dietary_preferences := [("low_sugar", true)] })
        { nutriments := [("sugars_100g", PyVal.str "lots")] } false =
      Except.error PyErr.typeError ∧
    checkNutrientLimits [("fat_100g", 3)]
        [("fat_100g", PyVal.str "unknown")] false ([], true) = ([], true) :=
  ⟨rfl, rfl, rfl⟩

/-- C2.  The claim states that the search loop never inspects more than
50 candidates.  The code violates this: a candidate rejected by the
nutrient filters is skipped with `continue` (line 329), which bypasses
the stop test at the bottom of the loop body (line 399), so a run of
rejected candidates is inspected past the 50 mark.  With 60 candidates
that all fail a `max_fat` filter, all 60 are inspected. -/
theorem c2_inspection_overrun :
    searchLoop { max_fat := some 3 } none
        (List.replicate 60 { nutriments := [("fat_100g", PyVal.num 100)] })
        0 0 =
      Except.ok (60, 0) ∧ 50 < 60 :=
  ⟨rfl, by norm_num⟩

/-- C3 counterexample.  A record violating a profile nutrient limit
(sugar 50 against a bound of 5) classified in lenient mode keeps
`is_safe = true`: the hit appends a warning but the downgrade is gated
on strict mode (plugin.py lines 832-833), so the violation does not
force `is_safe = false` unconditionally as the claim states. -/
theorem c3_counterexample :
    analyze_product_safety (some { nutrient_limits := [("sugars_100g", 5)] })
        { nutriments := [("sugars_100g", PyVal.num 50)] } false =
      Except.ok ⟨true, [Warning.highNutrient "sugars_100g" 50 5], []⟩ :=
  rfl

/-- C4.  With no active profile, classification always returns a safe
verdict with empty warnings and recommendations (plugin.py lines
724-725). -/
theorem c4_no_profile (p : Product) (strict : Bool) :
    analyze_product_safety none p strict = Except.ok ⟨true, [], []⟩ :=
  rfl

/-- C5.  If the ingredients text contains the phrase
"vegan status unknown", the diet status classifier reports non-compliant
and emits the status-unknown warning, whatever the label tags say: the
explicit-disclosure test is the first branch of `check_diet_status`
(plugin.py lines 843-845), ahead of the explicit-label branch. -/
theorem c5_status_unknown_precedence (ingr : String) (labels : List String)
    (strict : Bool) (inds : List String) (w : List Warning)
    (h : pyIn "vegan status unknown" (pyLower ingr) = true) :
    check_diet_status ingr labels strict "vegan" inds w =
      (w ++ [Warning.statusUnknownExplicit "vegan"], false) := by
  unfold check_diet_status
  have hcat : ("vegan" : String) ++ " status unknown" = "vegan status unknown" :=
    rfl
  rw [hcat, h]
  simp

/-- Witness for C5: a record that both discloses unknown vegan status
and carries a vegan label tag is still classified non-compliant. -/
theorem c5_witness :
    pyIn "vegan status unknown" (pyLower "vegan status unknown") = true ∧
    check_diet_status "vegan status unknown" ["en:vegan"] false "vegan"
        non_vegan_indicators [] =
      ([Warning.statusUnknownExplicit "vegan"], false) :=
  ⟨rfl, c5_status_unknown_precedence "vegan status unknown" ["en:vegan"] false
      non_vegan_indicators [] rfl⟩

/-- C6.  With no explicit label, no status-unknown phrase and no
negative indicator, an empty or short ingredients text yields the
insufficient-information warning, non-compliant under strict mode and
compliant under lenient mode (plugin.py lines 856-858). -/
theorem c6_insufficient_info (ingr : String) (labels : List String)
    (strict : Bool) (dt : String) (inds : List String) (w : List Warning)
    (h1 : pyIn (dt ++ " status unknown") (pyLower ingr) = false)
    (h2 : labels.any (fun lab => pyIn dt (pyLower lab)) = false)
    (h3 : inds.find? (fun ind => pyIn ind (pyLower ingr)) = none)
    (h4 : ingr = "" ∨ ingr.length < 20) :
    check_diet_status ingr labels strict dt inds w =
      (w ++ [Warning.insufficientInfo dt strict],
       if strict then false else true) := by
  unfold check_diet_status
  rw [h1, h2, h3]
  have hcond : (ingr.isEmpty || decide ((pyStrip ingr).length < 20)) = true := by
    rcases h4 with h4 | h4
    · subst h4
      rfl
    · have hlt : (pyStrip ingr).length < 20 :=
        Nat.lt_of_le_of_lt (pyStrip_length_le ingr) h4
      simp [hlt]
  simp [hcond]

/-- Witness for C6: the empty ingredients text under strict mode. -/
theorem c6_witness :
    (("" : String) = "" ∨ ("" : String).length < 20) ∧
    check_diet_status "" [] true "vegan" non_vegan_indicators [] =
      ([Warning.insufficientInfo "vegan" true], false) :=
  ⟨Or.inl rfl,
   c6_insufficient_info "" [] true "vegan" non_vegan_indicators []
     rfl rfl rfl (Or.inl rfl)⟩

/-- C7.  Nut detection: a nut keyword in the ingredients text always
counts; in the serialized nutrient breakdown, a nut keyword whose only
extracted percentage parses to 0 does not count, while a keyword
followed by a positive percentage counts (plugin.py lines 234-258 and
766-790).  The same behaviour is visible through the `no_nuts` search
filter. -/
theorem c7_nut_detection :
    nut_detected { ingredients_text := "contains walnut" } = true ∧
    nut_detected { nutriments := [("note", PyVal.str "nuts: 0%")] } = false ∧
    nut_detected { nutriments := [("note", PyVal.str "hazelnut: 2.5%")] } = true ∧
    meets_nutrient_filters { no_nuts := true }
        { ingredients_text := "contains walnut" } =
      Except.ok (false, some Reason.containsNuts) ∧
    meets_nutrient_filters { no_nuts := true }
        { nutriments := [("note", PyVal.str "nuts: 0%")] } =
      Except.ok (true, none) :=
  ⟨rfl, rfl, rfl, rfl, rfl⟩

/-- C8.  The boolean shorthand `low_fat` with no explicit `max_fat`
behaves exactly like `max_fat = 3.0`; an explicit `max_fat` overrides
the shorthand's implicit bound (plugin.py lines 168-171), and likewise
for the fiber, sugar and salt shorthands.  The concrete record with 5g
fat separates the two bounds: it is rejected under the implicit 3.0 and
admitted under an explicit 10.0. -/
theorem c8_shorthand_override :
    (∀ (f : Filters) (p : Product),
      meets_nutrient_filters { f with low_fat := true, max_fat := none } p =
        meets_nutrient_filters { f with low_fat := false, max_fat := some 3 } p) ∧
    (∀ (f : Filters) (p : Product),
      meets_nutrient_filters { f with low_fat := true, max_fat := some 10 } p =
        meets_nutrient_filters { f with low_fat := false, max_fat := some 10 } p) ∧
    (∀ (f : Filters) (p : Product),
      meets_nutrient_filters { f with low_fiber := true, max_fiber := none } p =
        meets_nutrient_filters { f with low_fiber := false, max_fiber := some 3 } p) ∧
    (∀ (f : Filters) (p : Product),
      meets_nutrient_filters { f with low_sugar := true, max_sugar := none } p =
        meets_nutrient_filters { f with low_sugar := false, max_sugar := some 5 } p) ∧
    (∀ (f : Filters) (p : Product),
      meets_nutrient_filters { f with low_salt := true, max_salt := none } p =
        meets_nutrient_filters { f with low_salt := false, max_salt := some (mkRat 3 10) } p) ∧
    (∀ f : Filters,
      has_nutrient_filters { f with low_fat := true, max_fat := none } =
        has_nutrient_filters { f with low_fat := false, max_fat := some 3 }) ∧
    meets_nutrient_filters { low_fat := true }
        { nutriments := [("fat_100g", PyVal.num 5)] } =
      Except.ok (false, some (Reason.overLimit "Fat" 5 3)) ∧
    meets_nutrient_filters { low_fat := true, max_fat := some 10 }
        { nutriments := [("fat_100g", PyVal.num 5)] } =
      Except.ok (true, none) :=
  ⟨fun _ _ => rfl, fun _ _ => rfl, fun _ _ => rfl, fun _ _ => rfl,
   fun _ _ => rfl, fun f => by simp [has_nutrient_filters, fat_limit],
   rfl, rfl⟩

/-- C9 counterexample.  With the `low_sugar` preference set and a sugar
value of 50 stored only under the unsuffixed `sugars` key, no low-sugar
recommendation is produced: the recommendation stage consults only
`sugars_100g` with default 0 (plugin.py line 883) and never falls back
to the unsuffixed key, contrary to the claim. -/
theorem c9_counterexample :
    analyze_product_safety
        (some { dietary_preferences := [("low_sugar", true)] })
        { nutriments := [("sugars", PyVal.num 50)] } false =
      Except.ok ⟨true, [], []⟩ :=
  rfl

lemma checkAllergies_inv (als : List String) (p : Product) (ingr : String)
    (acc : List Warning × Bool) (h : accInv acc) :
    accInv (checkAllergies als p ingr acc) :=
  foldl_inv _ accInv (fun b a hb => allergyStep_inv p ingr b a hb) als acc h

lemma checkIntolerances_inv (ints : List String) (ingr : String)
    (strict : Bool) (acc : List Warning × Bool) (h : accInv acc) :
    accInv (checkIntolerances ints ingr strict acc) :=
  foldl_inv _ accInv (fun b a hb => intoleranceStep_inv ingr strict b a hb)
    ints acc h

lemma checkNutrientLimits_inv (lims : List (String × ℚ)) (ns : Nutriments)
    (strict : Bool) (acc : List Warning × Bool) (h : accInv acc) :
    accInv (checkNutrientLimits lims ns strict acc) :=
  foldl_inv _ accInv (fun b a hb => nutrientLimitStep_inv ns strict b a hb)
    lims acc h

/-- The full safety accumulation preserves the downgrade invariant. -/
lemma analyzeSafety_inv (prof : Profile) (p : Product) (strict : Bool) :
    accInv (analyzeSafety prof p strict) := by
  unfold analyzeSafety
  exact checkAdditives_inv _ _ _ _
    (checkVegetarian_inv _ _ _ _ _
      (checkVegan_inv _ _ _ _ _
        (checkNutrientLimits_inv _ _ _ _
          (checkIntolerances_inv _ _ _ _
            (checkAllergies_inv _ _ _ _ (fun hfalse => Bool.noConfusion hfalse))))))

/-- C10.  Whenever classification returns an unsafe verdict, the
warnings list is non-empty: every code path that downgrades the verdict
first appends a warning (the allergy, intolerance, nutrient-limit and
additive loops, and every `return False` branch of
`check_diet_status`). -/
theorem c10_unsafe_has_warning (profile : Option Profile) (p : Product)
    (strict : Bool) (v : Verdict)
    (hok : analyze_product_safety profile p strict = Except.ok v)
    (hnosafe : v.is_safe = false) : v.warnings ≠ [] := by
  cases profile with
  | none =>
    unfold analyze_product_safety at hok
    cases hok
    exact absurd hnosafe (by simp)
  | some prof =>
    unfold analyze_product_safety at hok
    dsimp only at hok
    cases hrec : recommendStage prof.dietary_preferences p.nutriments with
    | error e =>
      rw [hrec] at hok
      cases hok
    | ok recs =>
      rw [hrec] at hok
      cases hok
      exact analyzeSafety_inv prof p strict hnosafe

/-- Witness for C10: a profile allergic to milk against a record whose
ingredients list contains milk. -/
theorem c10_witness :
    analyze_product_safety (some { allergies := ["milk"] })
        { ingredients_text := "milk" } false =
      Except.ok ⟨false, [Warning.allergy "milk"], []⟩ ∧
    [Warning.allergy "milk"] ≠ [] :=
  ⟨rfl,
   c10_unsafe_has_warning (some { allergies := ["milk"] })
     { ingredients_text := "milk" } false
     ⟨false, [Warning.allergy "milk"], []⟩ rfl rfl⟩

/-- C3 amended.  A violated profile nutrient limit always appends the
HIGH-nutrient warning and forces `is_safe = false` under strict mode;
under lenient mode the warning is still appended but `is_safe` is left
unchanged by the nutrient-limit check (see the counterexample for the
lenient half). -/
theorem c3_amended (prof : Profile) (r : Product) (v : Verdict) (k : String)
    (lim q : ℚ) (hmem : (k, lim) ∈ prof.nutrient_limits)
    (hval : resolveLimitVal r.nutriments k = PyVal.num q) (hgt : lim < q)
    (hok : analyze_product_safety (some prof) r true = Except.ok v) :
    v.is_safe = false ∧ Warning.highNutrient k q lim ∈ v.warnings := by
  unfold analyze_product_safety at hok
  dsimp only at hok
  cases hrec : recommendStage prof.dietary_preferences r.nutriments with
  | error e =>
    rw [hrec] at hok
    cases hok
  | ok recs =>
    rw [hrec] at hok
    cases hok
    have h3 := checkNutrientLimits_hit r.nutriments k lim q hval hgt
      prof.nutrient_limits
      (checkIntolerances prof.intolerances (pyLower r.ingredients_text) true
        (checkAllergies prof.allergies r (pyLower r.ingredients_text)
          ([], true))) hmem
    constructor
    · show (analyzeSafety prof r true).2 = false
      unfold analyzeSafety
      exact checkAdditives_false _ _ _ _
        (checkVegetarian_false _ _ _ _ _
          (checkVegan_false _ _ _ _ _ h3.1))
    · show Warning.highNutrient k q lim ∈ (analyzeSafety prof r true).1
      unfold analyzeSafety
      obtain ⟨t4, ht4⟩ := checkVegan_ext prof.dietary_preferences r
        (pyLower r.ingredients_text) true
        (checkNutrientLimits prof.nutrient_limits r.nutriments true
          (checkIntolerances prof.intolerances (pyLower r.ingredients_text) true
            (checkAllergies prof.allergies r (pyLower r.ingredients_text)
              ([], true))))
      obtain ⟨t5, ht5⟩ := checkVegetarian_ext prof.dietary_preferences r
        (pyLower r.ingredients_text) true _
      obtain ⟨t6, ht6⟩ := checkAdditives_ext prof.avoid_additives
        r.additives_tags true _
      rw [ht6, ht5, ht4]
      exact List.mem_append_left _
        (List.mem_append_left _ (List.mem_append_left _ h3.2))

/-- Witness for C3: the sugar-50-against-limit-5 record in strict mode. -/
theorem c3_amended_witness :
    ((5 : ℚ) < 50) ∧
    (Verdict.mk false [Warning.highNutrient "sugars_100g" 50 5] []).is_safe
        = false ∧
    Warning.highNutrient "sugars_100g" 50 5 ∈
      (Verdict.mk false [Warning.highNutrient "sugars_100g" 50 5] []).warnings :=
  ⟨by norm_num,
   c3_amended { nutrient_limits := [("sugars_100g", 5)] }
     { nutriments := [("sugars_100g", PyVal.num 50)] }
     ⟨false, [Warning.highNutrient "sugars_100g" 50 5], []⟩
     "sugars_100g" 5 50 (by simp) rfl (by norm_num) rfl⟩

/-- A low-sugar recommendation is produced whenever the preference is
set and the `sugars_100g` value is a number above 5. -/
lemma recommendStage_sugar (prefs : List (String × Bool)) (ns : Nutriments)
    (recs : List Rec) (qs : ℚ)
    (hrec : recommendStage prefs ns = Except.ok recs)
    (hpref : prefGet prefs "low_sugar" = true)
    (hval : (pyDictGet ns "sugars_100g").getD (PyVal.num 0) = PyVal.num qs)
    (hq : 5 < qs) : Rec.lowSugarAlt ∈ recs := by
  unfold recommendStage at hrec
  have hsug : (if prefGet prefs "low_sugar" then
      pyGt ((pyDictGet ns "sugars_100g").getD (PyVal.num 0)) 5
    else .ok false) = Except.ok true := by
    rw [hpref, hval]
    simp [pyGt, hq]
  rw [hsug] at hrec
  dsimp only at hrec
  cases hsalt : (if prefGet prefs "low_salt" then
      pyGt ((pyDictGet ns "salt_100g").getD (PyVal.num 0)) (mkRat 3 2)
    else .ok false) with
  | error e =>
    rw [hsalt] at hrec
    cases hrec
  | ok b2 =>
    rw [hsalt] at hrec
    cases hrec
    simp

/-- A low-salt recommendation is produced whenever the preference is set
and the `salt_100g` value is a number above 1.5 (`mkRat 3 2`). -/
lemma recommendStage_salt (prefs : List (String × Bool)) (ns : Nutriments)
    (recs : List Rec) (qt : ℚ)
    (hrec : recommendStage prefs ns = Except.ok recs)
    (hpref : prefGet prefs "low_salt" = true)
    (hval : (pyDictGet ns "salt_100g").getD (PyVal.num 0) = PyVal.num qt)
    (hq : mkRat 3 2 < qt) : Rec.lowSaltAlt ∈ recs := by
  unfold recommendStage at hrec
  have hsal : (if prefGet prefs "low_salt" then
      pyGt ((pyDictGet ns "salt_100g").getD (PyVal.num 0)) (mkRat 3 2)
    else .ok false) = Except.ok true := by
    rw [hpref, hval]
    simp [pyGt, hq]
  cases hsugar : (if prefGet prefs "low_sugar" then
      pyGt ((pyDictGet ns "sugars_100g").getD (PyVal.num 0)) 5
    else .ok false) with
  | error e =>
    rw [hsugar] at hrec
    cases hrec
  | ok b1 =>
    rw [hsugar] at hrec
    dsimp only at hrec
    rw [hsal] at hrec
    dsimp only at hrec
    cases hrec
    simp

/-- C9 amended.  Recommendations are generated after (and independently
of) the verdict and warnings: the returned `is_safe` and warnings are
exactly those of the safety stages.  If the `low_sugar` preference is
set and the value under the `sugars_100g` key alone (defaulting to 0 —
the unsuffixed `sugars` key is never consulted, see the counterexample)
is a number above 5, a low-sugar suggestion is in the result; likewise
`low_salt` with `salt_100g` above 1.5 (`mkRat 3 2`). -/
theorem c9_amended (prof : Profile) (r : Product) (strict : Bool)
    (v : Verdict)
    (hok : analyze_product_safety (some prof) r strict = Except.ok v) :
    (∀ qs : ℚ, prefGet prof.dietary_preferences "low_sugar" = true →
      (pyDictGet r.nutriments "sugars_100g").getD (PyVal.num 0) =
        PyVal.num qs →
      5 < qs → Rec.lowSugarAlt ∈ v.recommendations) ∧
    (∀ qt : ℚ, prefGet prof.dietary_preferences "low_salt" = true →
      (pyDictGet r.nutriments "salt_100g").getD (PyVal.num 0) =
        PyVal.num qt →
      mkRat 3 2 < qt → Rec.lowSaltAlt ∈ v.recommendations) ∧
    v.is_safe = (analyzeSafety prof r strict).2 ∧
    v.warnings = (analyzeSafety prof r strict).1 := by
  unfold analyze_product_safety at hok
  dsimp only at hok
  cases hrec : recommendStage prof.dietary_preferences r.nutriments with
  | error e =>
    rw [hrec] at hok
    cases hok
  | ok recs =>
    rw [hrec] at hok
    cases hok
    refine ⟨?_, ?_, rfl, rfl⟩
    · intro qs hpref hval hq
      exact recommendStage_sugar _ _ _ _ hrec hpref hval hq
    · intro qt hpref hval hq
      exact recommendStage_salt _ _ _ _ hrec hpref hval hq

/-- Witness for C9: the low-sugar preference with sugar 50 under the
`sugars_100g` key yields the low-sugar suggestion. -/
theorem c9_amended_witness :
    prefGet [("low_sugar", true)] "low_sugar" = true ∧
    (5 : ℚ) < 50 ∧
    Rec.lowSugarAlt ∈ (Verdict.mk true [] [Rec.lowSugarAlt]).recommendations :=
  ⟨rfl, by norm_num,
   (c9_amended { dietary_preferences := [("low_sugar", true)] }
       { nutriments := [("sugars_100g", PyVal.num 50)] } false
       ⟨true, [], [Rec.lowSugarAlt]⟩ rfl).1 50 rfl rfl (by norm_num)⟩
